import Mathlib

/-!
Verification of the interrupt-management layer of a bare-metal kernel
(`kernel/src/exception/asynchronous.rs`), embedded shallowly in Lean 4.

Pure Rust functions become Lean functions; stateful code becomes explicit
state passing on a `CoreState` record (the calling core's local
interrupt-mask state) or on an `InitStateLock` value (the global manager
registry).  Fallible operations return `Option`/`Except`; an aborting
operation (a failed `assert!`, or a panicking closure in a kernel built
with abort-on-panic) is modelled as `Option.none`: no continuation state
exists after an abort.
-/

/-- The local interrupt-mask state of the executing core.
`irq_masked = true` means delivery of local IRQs is disabled. -/
structure CoreState where
  irq_masked : Bool
deriving DecidableEq, Repr

/-- Modelled from the spec: the architecture primitive `local_irq_mask_save`
(the file `_arch/aarch64/exception/asynchronous.rs` is not under `src/`).
Per the spec's Masking Utilities: "mask-and-save (disable and return the
prior mask state for later restoration)". -/
def local_irq_mask_save (c : CoreState) : Bool × CoreState :=
  (c.irq_masked, { irq_masked := true })

/-- Modelled from the spec: the architecture primitive `local_irq_restore`
(the file `_arch/aarch64/exception/asynchronous.rs` is not under `src/`).
Per the spec's Masking Utilities: "restore (reinstate a previously saved
state)". -/
def local_irq_restore (saved : Bool) (_c : CoreState) : CoreState :=
  { irq_masked := saved }

/-- Embedding of `exec_with_irq_masked` from
`kernel/src/exception/asynchronous.rs`:

    let saved = local_irq_mask_save();
    let ret = f();
    local_irq_restore(saved);
    ret

The closure `f` runs against the core state and may itself change the mask
state; `f` returning `none` models `f` aborting (leaving abnormally in a
kernel where panics do not unwind), in which case the lines after `f()`
are never reached and no post-call state exists. -/
def exec_with_irq_masked {T : Type} (f : CoreState → Option (T × CoreState))
    (c : CoreState) : Option (T × CoreState) :=
  let s := local_irq_mask_save c
  match f s.2 with
  | none => none
  | some (ret, c2) => some (ret, local_irq_restore s.1 c2)

/-- Embedding of `struct IRQNumber<const MAX_INCLUSIVE: usize>(usize)`:
a wrapper type for IRQ numbers, parameterized by the compile-time
maximum `MAX_INCLUSIVE`.  The Rust struct stores a plain `usize` with no
type-level bound; the range check lives in `IRQNumber::new` alone. -/
structure IRQNumber (MAX_INCLUSIVE : Nat) where
  val : Nat
deriving DecidableEq, Repr

namespace IRQNumber

/-- Embedding of `pub const NUM_TOTAL: usize = MAX_INCLUSIVE + 1;`. -/
def NUM_TOTAL (MAX_INCLUSIVE : Nat) : Nat := MAX_INCLUSIVE + 1

/-- Embedding of `IRQNumber::new`:

    pub const fn new(number: usize) -> Self {
        assert!(number <= MAX_INCLUSIVE);
        Self(number)
    }

A failed `assert!` aborts; abortion is modelled as `none`. -/
def new (MAX_INCLUSIVE : Nat) (number : Nat) : Option (IRQNumber MAX_INCLUSIVE) :=
  if number ≤ MAX_INCLUSIVE then some ⟨number⟩ else none

/-- Embedding of `IRQNumber::get`: `pub const fn get(self) -> usize { self.0 }`. -/
def get {MAX_INCLUSIVE : Nat} (self : IRQNumber MAX_INCLUSIVE) : Nat := self.val

/-- The derive list on the struct declaration in the source:
`#[derive(Copy, Clone)] pub struct IRQNumber<const MAX_INCLUSIVE: usize>(usize);`.
These are the only trait implementations derived for the type; the source
contains no `PartialEq`, `Eq`, `PartialOrd` or `Ord` implementation for
`IRQNumber`, derived or manual. -/
def derivedTraits : List String := ["Copy", "Clone"]

/-- Embedding of `impl fmt::Display for IRQNumber`:
`write!(f, "{}", self.0)`.  Rust's `{}` formatting of a `usize` prints its
plain decimal representation, which `Nat.repr` produces. -/
def display {MAX_INCLUSIVE : Nat} (self : IRQNumber MAX_INCLUSIVE) : String :=
  Nat.repr self.val

end IRQNumber

/-- Embedding of `IRQContext`: a zero-size token whose only field is
`PhantomData` (modelled as `Unit`); the Rust lifetime parameter has no
runtime content. -/
structure IRQContext where
  _0 : Unit
deriving DecidableEq, Repr

/-- Embedding of `IRQContext::new`:

    pub unsafe fn new() -> Self {
        IRQContext { _0: PhantomData }
    }

The body is a plain struct literal: it consults no machine state, so the
embedding takes the core state and returns it unchanged together with the
token; the function is total (it cannot fail). -/
def IRQContext.new (c : CoreState) : IRQContext × CoreState :=
  ({ _0 := () }, c)

/-- Embedding of `struct IRQDescriptor { name: &'static str, handler: &'static dyn IRQHandler }`.
The handler trait object reference is abstracted as a value of an
arbitrary type `H`. -/
structure IRQDescriptor (H : Type) where
  name : String
  handler : H
deriving DecidableEq, Repr

/-- Modelled from the spec: `InitStateLock` (module `kernel/src/synchronization.rs`
is not under `src/`).  Per the spec's Global Manager Registry: a read/write
synchronization primitive over one datum where `write` performs an
exclusive mutation of the datum and `read` returns the current datum;
concurrency aspects (reader/writer exclusion) have no content in a
sequential shallow embedding. -/
structure InitStateLock (A : Type) where
  data : A
deriving DecidableEq, Repr

/-- Modelled from the spec: `InitStateLock::new(v)` creates the lock holding `v`. -/
def InitStateLock.new {A : Type} (v : A) : InitStateLock A := ⟨v⟩

/-- Modelled from the spec: `InitStateLock::write(f)` applies the mutating
closure `f` to the guarded datum under exclusive access. -/
def InitStateLock.write {A : Type} (l : InitStateLock A) (f : A → A) : InitStateLock A :=
  ⟨f l.data⟩

/-- Modelled from the spec: `InitStateLock::read(f)` applies the closure to a
shared view of the guarded datum; in the source `irq_manager` passes
`|manager| *manager`, so the read returns the current datum. -/
def InitStateLock.read {A : Type} (l : InitStateLock A) : A := l.data

/-- Modelled from the spec: `struct NullIRQManager;` of
`kernel/src/exception/null_irq_manager.rs`, which is not under `src/`.
Per the spec: "a 'null' placeholder manager used only as a safe default
before real hardware is configured"; it is a unit struct. -/
structure NullIRQManager where
deriving DecidableEq, Repr

/-- Modelled from the spec: the global instance
`pub static NULL_IRQ_MANAGER: NullIRQManager`. -/
def NULL_IRQ_MANAGER : NullIRQManager := {}

/-- Modelled from the spec: the fixed failure reason the null manager's
registration reports ("registration reports a fixed failure reason";
"deterministically fails with the documented 'no manager' reason"). -/
def noManagerReason : String := "No IRQ Manager registered yet"

/-- Modelled from the spec: `NullIRQManager::register_handler` always fails
with the fixed "no manager" reason, for every interrupt number and
descriptor. -/
def NullIRQManager.register_handler {H : Type} {M : Nat} (_self : NullIRQManager)
    (_irq_number : IRQNumber M) (_descriptor : IRQDescriptor H) : Except String Unit :=
  .error noManagerReason

/-- Modelled from the spec: `NullIRQManager::handle_pending_irqs` is a no-op:
"dispatch does nothing".  Dispatch is modelled as a transformation of the
log of handler names invoked so far; the null manager invokes nothing and
leaves the log unchanged. -/
def NullIRQManager.handle_pending_irqs (_self : NullIRQManager) (_ic : IRQContext)
    (invoked : List String) : List String :=
  invoked

/-- Embedding of the initializer of the global instance
`static CUR_IRQ_MANAGER: InitStateLock<&'static dyn IRQManager + Sync> =
InitStateLock::new(&null_irq_manager::NULL_IRQ_MANAGER);`.
Manager references are abstracted as values of an arbitrary type `A`;
the initializer stores the given default reference (in the source, the
null manager). -/
def CUR_IRQ_MANAGER_init {A : Type} (default_manager : A) : InitStateLock A :=
  InitStateLock.new default_manager

/-- Embedding of `register_irq_manager`:
`CUR_IRQ_MANAGER.write(|manager| *manager = new_manager)`. -/
def register_irq_manager {A : Type} (l : InitStateLock A) (new_manager : A) :
    InitStateLock A :=
  l.write (fun _manager => new_manager)

/-- Embedding of `irq_manager`: `CUR_IRQ_MANAGER.read(|manager| *manager)`. -/
def irq_manager {A : Type} (l : InitStateLock A) : A :=
  l.read

/-- Modelled from the spec: a table-backed Manager implementation (the concrete
interrupt-controller drivers implementing `interface::IRQManager` are not
under `src/`).  Per the spec's Manager Capability: the Manager "consults
its own table of registered Handler Capabilities"; the table maps each
interrupt number in `[0, M]` to at most one descriptor. -/
structure TableManager (H : Type) (M : Nat) where
  table : List (Option (IRQDescriptor H))
deriving DecidableEq, Repr

/-- Modelled from the spec: the reason reported on double registration
("fails with a descriptive 'already registered' reason"). -/
def alreadyRegisteredReason : String := "IRQ handler already registered"

/-- Modelled from the spec: the reason reported for a number outside the
implementation's supported range ("or if `irq_number` is out of the
implementation's supported range"). -/
def outOfRangeReason : String := "IRQ number out of range"

/-- Modelled from the spec: `register_handler(irq_number, descriptor)` on a
table-backed Manager: "associates a descriptor with a line; fails with a
descriptive reason if the line already has a handler, or if `irq_number`
is out of the implementation's supported range".  The result pairs the
`Result` value with the Manager state after the call; a failing call
returns the state unchanged. -/
def TableManager.register_handler {H : Type} {M : Nat} (self : TableManager H M)
    (irq_number : IRQNumber M) (descriptor : IRQDescriptor H) :
    Except String Unit × TableManager H M :=
  match self.table.get? irq_number.get with
  | none => (.error outOfRangeReason, self)
  | some (some _) => (.error alreadyRegisteredReason, self)
  | some none =>
      (.ok (), { table := self.table.set irq_number.get (some descriptor) })

/-- The descriptor registered for a given line of a table-backed Manager. -/
def TableManager.lookup {H : Type} {M : Nat} (self : TableManager H M)
    (irq_number : IRQNumber M) : Option (IRQDescriptor H) :=
  (self.table.get? irq_number.get).join

/-- Unfolding equation for `exec_with_irq_masked`: the closure runs in the
masked state, and on normal return the mask is set back to the pre-call
value. -/
theorem exec_with_irq_masked_eq {T : Type} (f : CoreState → Option (T × CoreState))
    (c : CoreState) :
    exec_with_irq_masked f c =
      Option.map (fun p => (p.1, { irq_masked := c.irq_masked }))
        (f { irq_masked := true }) := by
  simp only [exec_with_irq_masked, local_irq_mask_save, local_irq_restore]
  cases f { irq_masked := true } <;> rfl

/-- C1: `exec_with_irq_masked f` returns exactly the closure's result and
leaves the core's interrupt-mask state equal to its pre-call value on every
exit path: (1) whenever it returns, the mask state equals the pre-call
state and the returned value is the value `f` produced when run with IRQs
masked; (2) when `f` aborts (exits abnormally in an abort-on-panic kernel),
no post-call state exists at all, so no exit path observes a changed mask;
(3) a nested call, which starts in the masked state the outer call
established, restores exactly that masked state (LIFO order); (4) the
composition of nested calls restores the outermost pre-call state. -/
theorem exec_with_irq_masked_correct :
    (∀ (T : Type) (f : CoreState → Option (T × CoreState)) (c : CoreState) (t : T)
        (c' : CoreState),
        exec_with_irq_masked f c = some (t, c') →
        c'.irq_masked = c.irq_masked ∧ ∃ c₂, f ⟨true⟩ = some (t, c₂)) ∧
    (∀ (T : Type) (f : CoreState → Option (T × CoreState)) (c : CoreState),
        f ⟨true⟩ = none → exec_with_irq_masked f c = none) ∧
    (∀ (T : Type) (g : CoreState → Option (T × CoreState)) (t : T) (c'' : CoreState),
        exec_with_irq_masked g ⟨true⟩ = some (t, c'') → c''.irq_masked = true) ∧
    (∀ (T : Type) (g : CoreState → Option (T × CoreState)) (c : CoreState) (t : T)
        (c' : CoreState),
        exec_with_irq_masked (exec_with_irq_masked g) c = some (t, c') →
        c'.irq_masked = c.irq_masked) := by
  have key : ∀ (T : Type) (f : CoreState → Option (T × CoreState)) (c : CoreState) (t : T)
      (c' : CoreState),
      exec_with_irq_masked f c = some (t, c') →
      c'.irq_masked = c.irq_masked ∧ ∃ c₂, f ⟨true⟩ = some (t, c₂) := by
    intro T f c t c' h
    rw [exec_with_irq_masked_eq] at h
    cases hf : f ⟨true⟩ with
    | none => rw [hf] at h; cases h
    | some p =>
        rw [hf] at h
        simp only [Option.map_some', Option.some.injEq, Prod.mk.injEq] at h
        obtain ⟨ht, hc⟩ := h
        subst hc
        subst ht
        exact ⟨rfl, ⟨p.2, rfl⟩⟩
  refine ⟨key, ?_, ?_, ?_⟩
  · intro T f c hf
    rw [exec_with_irq_masked_eq, hf]
    rfl
  · intro T g t c'' h
    exact (key T g ⟨true⟩ t c'' h).1
  · intro T g c t c' h
    exact (key T (exec_with_irq_masked g) c t c' h).1

/-- Witness for C1 at a concrete closure and state: running a closure that
returns `5` from an unmasked state returns `5` and leaves the state
unmasked. -/
theorem exec_with_irq_masked_correct_witness :
    (CoreState.mk false).irq_masked = (CoreState.mk false).irq_masked ∧
    ∃ c₂, (fun c => some (5, c) : CoreState → Option (Nat × CoreState)) ⟨true⟩ =
      some (5, c₂) :=
  exec_with_irq_masked_correct.1 Nat (fun c => some (5, c)) ⟨false⟩ 5 ⟨false⟩ rfl

/-- C2: for every `value` and compile-time maximum: if `value ≤ max`,
construction succeeds and `get` returns `value`; if `value > max`,
construction aborts (`none`); consequently every number produced by `new`
is in range. -/
theorem IRQNumber.new_spec (MAX_INCLUSIVE value : Nat) :
    (value ≤ MAX_INCLUSIVE →
      ∃ x : IRQNumber MAX_INCLUSIVE,
        IRQNumber.new MAX_INCLUSIVE value = some x ∧ x.get = value) ∧
    (MAX_INCLUSIVE < value → IRQNumber.new MAX_INCLUSIVE value = none) ∧
    (∀ x : IRQNumber MAX_INCLUSIVE,
      IRQNumber.new MAX_INCLUSIVE value = some x → x.get ≤ MAX_INCLUSIVE) := by
  refine ⟨?_, ?_, ?_⟩
  · intro h
    exact ⟨⟨value⟩, by simp [IRQNumber.new, h], rfl⟩
  · intro h
    simp [IRQNumber.new, Nat.not_le.2 h]
  · intro x hx
    unfold IRQNumber.new at hx
    split at hx
    · cases hx
      assumption
    · exact absurd hx (by simp)

/-- Witness for C2 at the spec's own scenario: `IRQNumber::<31>::new(31)`
succeeds and `get()` returns `31`. -/
theorem IRQNumber.new_spec_witness :
    ∃ x : IRQNumber 31, IRQNumber.new 31 31 = some x ∧ x.get = 31 :=
  (IRQNumber.new_spec 31 31).1 (by decide)

/-- C5: `NUM_TOTAL` equals `max + 1` for every compile-time maximum, and it
is exactly the count of values the constructor accepts. -/
theorem IRQNumber.NUM_TOTAL_spec (MAX_INCLUSIVE : Nat) :
    IRQNumber.NUM_TOTAL MAX_INCLUSIVE = MAX_INCLUSIVE + 1 ∧
    ∀ n : Nat, (IRQNumber.new MAX_INCLUSIVE n).isSome ↔
      n < IRQNumber.NUM_TOTAL MAX_INCLUSIVE := by
  refine ⟨rfl, ?_⟩
  intro n
  by_cases h : n ≤ MAX_INCLUSIVE <;>
    simp [IRQNumber.new, IRQNumber.NUM_TOTAL, h, Nat.lt_succ_iff]

/-- C3: in the initial state of the global registry (the initializer of
`CUR_IRQ_MANAGER`), before any call to `register_irq_manager`,
`irq_manager` returns the null manager; the null manager's
`register_handler` deterministically fails with the fixed "no manager"
reason for every input, and its `handle_pending_irqs` is a no-op on the
invocation log. -/
theorem null_manager_default_spec :
    irq_manager (CUR_IRQ_MANAGER_init NULL_IRQ_MANAGER) = NULL_IRQ_MANAGER ∧
    (∀ (H : Type) (M : Nat) (n : IRQNumber M) (d : IRQDescriptor H),
      NULL_IRQ_MANAGER.register_handler n d = Except.error noManagerReason) ∧
    (∀ (ic : IRQContext) (invoked : List String),
      NULL_IRQ_MANAGER.handle_pending_irqs ic invoked = invoked) :=
  ⟨rfl, fun _ _ _ _ => rfl, fun _ _ => rfl⟩

/-- C4: after `register_irq_manager m` on any registry state, followed by any
(possibly empty) sequence `ms` of further registrations — the model's only
mutating operation — `irq_manager` returns the most recent registration:
`m` itself while no further registration occurred, and the last element of
`ms` after later replacements, which the registry permits. -/
theorem register_irq_manager_spec (A : Type) (l : InitStateLock A) (m : A)
    (ms : List A) :
    irq_manager (ms.foldl register_irq_manager (register_irq_manager l m)) =
      ms.getLastD m := by
  induction ms generalizing l m with
  | nil => rfl
  | cons m' tl ih =>
      have step : (m' :: tl).getLastD m = tl.getLastD m' := by
        cases tl <;> simp [List.getLastD]
      rw [List.foldl_cons, ih (register_irq_manager l m) m']
      exact step.symm

/-- C6: if registering descriptor `d₁` for line `n` on a table-backed Manager
succeeds and yields state `m₁`, then registering any `d₂` for the same `n`
on `m₁` fails with the "already registered" reason, returning the state
`m₁` unchanged, and `n` still maps to `d₁`. -/
theorem TableManager.register_handler_spec (H : Type) (M : Nat)
    (m m₁ : TableManager H M) (n : IRQNumber M) (d₁ d₂ : IRQDescriptor H)
    (h : m.register_handler n d₁ = (Except.ok (), m₁)) :
    m₁.register_handler n d₂ = (Except.error alreadyRegisteredReason, m₁) ∧
    m₁.lookup n = some d₁ := by
  unfold TableManager.register_handler at h
  split at h
  · exact absurd h (by simp)
  · exact absurd h (by simp)
  · rename_i hget
    simp only [Prod.mk.injEq] at h
    obtain ⟨-, hm₁⟩ := h
    have hlen : n.get < m.table.length := by
      by_contra hn
      rw [List.get?_eq_none.2 (Nat.le_of_not_lt hn)] at hget
      cases hget
    have hset : m₁.table.get? n.get = some (some d₁) := by
      rw [← hm₁, List.get?_eq_getElem?]
      exact List.getElem?_set_eq_of_lt _ hlen
    constructor
    · unfold TableManager.register_handler
      rw [hset]
    · unfold TableManager.lookup
      rw [hset]
      rfl

/-- Witness for C6 on a concrete three-line table: after line 1 holds the
"uart" descriptor, registering a "timer" descriptor for line 1 fails with
the "already registered" reason and leaves the table unchanged. -/
theorem TableManager.register_handler_spec_witness :
    TableManager.register_handler
        (⟨[none, some ⟨"uart", 7⟩, none]⟩ : TableManager Nat 2) ⟨1⟩ ⟨"timer", 8⟩ =
      (Except.error alreadyRegisteredReason,
        (⟨[none, some ⟨"uart", 7⟩, none]⟩ : TableManager Nat 2)) ∧
    TableManager.lookup (⟨[none, some ⟨"uart", 7⟩, none]⟩ : TableManager Nat 2) ⟨1⟩ =
      some ⟨"uart", 7⟩ :=
  TableManager.register_handler_spec Nat 2 ⟨[none, none, none]⟩
    ⟨[none, some ⟨"uart", 7⟩, none]⟩ ⟨1⟩ ⟨"uart", 7⟩ ⟨"timer", 8⟩ rfl

/-- Counterexample to C7 as stated: the struct declaration derives only
`Copy` and `Clone`; the source defines no `PartialEq`, `Eq`, `PartialOrd`
or `Ord` implementation for `IRQNumber`, so no programmatic equality or
ordering operator exists on bounded interrupt numbers. -/
theorem IRQNumber.no_derived_order :
    "PartialEq" ∉ IRQNumber.derivedTraits ∧
    "Eq" ∉ IRQNumber.derivedTraits ∧
    "PartialOrd" ∉ IRQNumber.derivedTraits ∧
    "Ord" ∉ IRQNumber.derivedTraits := by
  decide

/-- C7 amended: value identity of bounded interrupt numbers is structural on
the wrapped integer — two values with the same maximum are the same value
iff `get` agrees — and comparing values has no side effects (values are
pure data); but the code derives only `Copy` and `Clone`, so no
`==`/`<` operators are defined on the type. -/
theorem IRQNumber.eq_iff_get_eq (MAX_INCLUSIVE : Nat)
    (a b : IRQNumber MAX_INCLUSIVE) :
    a = b ↔ a.get = b.get := by
  cases a
  cases b
  simp [IRQNumber.get]

/-- C9: `IRQContext::new` performs no runtime verification: for any machine
state — masked or unmasked, in interrupt context or not — it succeeds,
returns the token, and leaves the state untouched. -/
theorem IRQContext.new_total (c : CoreState) :
    IRQContext.new c = ({ _0 := () }, c) :=
  rfl

/-- C10: the textual rendering of a bounded interrupt number constructed from
`n` is exactly the decimal representation of `n`, with no prefix, suffix
or padding. -/
theorem IRQNumber.display_decimal (MAX_INCLUSIVE n : Nat)
    (x : IRQNumber MAX_INCLUSIVE) (h : IRQNumber.new MAX_INCLUSIVE n = some x) :
    IRQNumber.display x = Nat.repr n := by
  unfold IRQNumber.new at h
  split at h
  · cases h
    rfl
  · exact absurd h (by simp)

/-- Witness for C10: the number 5 in a 32-line space renders as "5". -/
theorem IRQNumber.display_decimal_witness :
    IRQNumber.display (⟨5⟩ : IRQNumber 31) = Nat.repr 5 :=
  IRQNumber.display_decimal 31 5 ⟨5⟩ rfl
